import Mathlib

/-!
Shallow embedding of the agent decision / rate-limiting / retry subsystem of the
lead-outreach platform (repository `Advanced-Autonomics`), translated from:

* `app/models/agent_config.py`, `app/models/lead.py`, `app/models/email_queue.py`
* `app/utils/time_utils.py`, `app/utils/rate_limiter.py`
* `app/agent/safety_controller.py`, `app/agent/decision_engine.py`
* `app/agent/state_manager.py`, `app/agent/agent_runner.py`
* `app/worker/tasks.py` (the `generate_and_send_email_task` celery task)

Modelling conventions:
* The SQLAlchemy session is modelled as explicit state passing over a `Db` value
  holding the singleton `AgentConfig` row, the `leads` table and the
  `email_queue` table.  `db.commit()` corresponds to producing the updated `Db`.
* `datetime.utcnow()` is modelled as a natural-number timestamp (seconds) stored
  in `Db.now`; `TimeUtils.get_current_date_str()` as the string `Db.today`.
* SQL `Integer` columns are modelled as `Int` (they are unbounded in Python and
  admin routes may write arbitrary values); `Float` score columns as `ℚ`
  (exact-arithmetic model of the float computation).
* `TimeUtils.is_business_hours` depends on wall-clock time and timezone data,
  so its outcome is abstracted as a boolean oracle input, as is the success or
  failure of the external LLM/SMTP collaborators and of the per-decision
  handlers inside the agent cycle.
* Rendered e-mail content (subject/body templating) is out of the verified
  scope (spec §1); those columns are omitted from the `EmailQueue` embedding.
-/

namespace AgentCore

/-- Embedding of `app/models/agent_config.py` — the fields of the singleton `AgentConfig`
row that the subsystem under verification reads or writes. -/
structure AgentConfig where
  isRunning : Bool
  isPaused : Bool
  dailyEmailLimit : Int
  hourlyEmailLimit : Int
  emailsSentToday : Int
  emailsSentThisHour : Int
  lastResetDate : String
  lastHourReset : Option Nat
  respectBusinessHours : Bool
  totalEmailsSent : Int
  lastAgentRunAt : Option Nat
  deriving Repr, DecidableEq

/-- Embedding of `app/models/lead.py` — the lead fields used by the agent subsystem. -/
structure Lead where
  id : Nat
  email : String
  status : String
  sequenceStep : Int
  agentEnabled : Bool
  agentPaused : Bool
  nextAgentCheckAt : Option Nat
  lastEmailSentAt : Option Nat
  lastAgentActionAt : Option Nat
  followUpCount : Int
  maxFollowUps : Int
  daysBetweenFollowups : Nat
  priorityScore : ℚ
  bounceCount : Int
  errorCount : Int
  lastErrorMessage : Option String
  deriving Repr, DecidableEq

/-- Embedding of `app/models/email_queue.py` — one row per attempted send (rendered
subject/body content omitted, out of verified scope). -/
structure EmailQueue where
  id : Nat
  leadId : Nat
  taskId : Option Nat
  status : String
  retryCount : Nat
  maxRetries : Nat
  lastError : Option String
  scheduledAt : Option Nat
  sentAt : Option Nat
  failedAt : Option Nat
  deriving Repr, DecidableEq

/-- The relational store threaded through every call, together with the
current wall-clock snapshot. -/
structure Db where
  config : Option AgentConfig
  leads : List Lead
  queue : List EmailQueue
  today : String
  now : Nat
  deriving Repr, DecidableEq

/-- Embeds `TimeUtils.is_ready_for_action` (`app/utils/time_utils.py` lines 73-87):
a null schedule means "ready now"; otherwise ready iff `now >= next_check_at`. -/
def TimeUtils.isReadyForAction (now : Nat) (nextCheckAt : Option Nat) : Bool :=
  match nextCheckAt with
  | none => true
  | some t => decide (t ≤ now)

/-- Embeds `TimeUtils.calculate_next_followup`: `last_email_at + timedelta(days=days_to_wait)`
(seconds model: one day = 86400 s). -/
def TimeUtils.calculateNextFollowup (lastEmailAt : Nat) (daysToWait : Nat) : Nat :=
  lastEmailAt + daysToWait * 86400

/-- Result of a rate-limiter / safety check: the `(allowed, reason)` tuple
returned by the Python function, together with the session state it committed. -/
structure RLCheck where
  ok : Bool
  reason : String
  db : Db
  deriving Repr, DecidableEq

/-- Embeds `RateLimiter.check_daily_limit` (`app/utils/rate_limiter.py` lines 17-39):
lazily zero `emails_sent_today` on a new calendar day, then compare against
`daily_email_limit`. -/
def RateLimiter.checkDailyLimit (db : Db) : RLCheck :=
  match db.config with
  | none => ⟨false, "Agent config not found", db⟩
  | some config =>
    let config :=
      if config.lastResetDate ≠ db.today then
        { config with emailsSentToday := 0, lastResetDate := db.today }
      else config
    let db := { db with config := some config }
    if config.dailyEmailLimit ≤ config.emailsSentToday then
      ⟨false, "Daily limit reached (" ++ toString config.dailyEmailLimit ++ ")", db⟩
    else
      ⟨true, "OK (" ++ toString config.emailsSentToday ++ "/" ++
        toString config.dailyEmailLimit ++ ")", db⟩

/-- Embeds `RateLimiter.check_hourly_limit` (`app/utils/rate_limiter.py` lines 41-65):
lazily zero `emails_sent_this_hour` when `last_hour_reset` is null or at least
one hour has elapsed, then compare against `hourly_email_limit`. -/
def RateLimiter.checkHourlyLimit (db : Db) : RLCheck :=
  match db.config with
  | none => ⟨false, "Agent config not found", db⟩
  | some config =>
    let reset :=
      match config.lastHourReset with
      | none => true
      | some t => decide (3600 ≤ db.now - t)
    let config :=
      if reset then
        { config with emailsSentThisHour := 0, lastHourReset := some db.now }
      else config
    let db := { db with config := some config }
    if config.hourlyEmailLimit ≤ config.emailsSentThisHour then
      ⟨false, "Hourly limit reached (" ++ toString config.hourlyEmailLimit ++ ")", db⟩
    else
      ⟨true, "OK (" ++ toString config.emailsSentThisHour ++ "/" ++
        toString config.hourlyEmailLimit ++ ")", db⟩

/-- Embeds `RateLimiter.increment_counters` (`app/utils/rate_limiter.py` lines 67-75):
bump today/hour/total counters together.  (Note: no caller of this function
exists anywhere in the repository.) -/
def RateLimiter.incrementCounters (db : Db) : Db :=
  match db.config with
  | none => db
  | some config =>
    { db with config := some { config with
        emailsSentToday := config.emailsSentToday + 1,
        emailsSentThisHour := config.emailsSentThisHour + 1,
        totalEmailsSent := config.totalEmailsSent + 1 } }

/-- Embeds `RateLimiter.can_send_email` (`app/utils/rate_limiter.py` lines 77-95):
daily check first, its failure reason takes precedence; then hourly. -/
def RateLimiter.canSendEmail (db : Db) : RLCheck :=
  let daily := RateLimiter.checkDailyLimit db
  if daily.ok then
    let hourly := RateLimiter.checkHourlyLimit daily.db
    if hourly.ok then ⟨true, "All limits OK", hourly.db⟩
    else ⟨false, hourly.reason, hourly.db⟩
  else ⟨false, daily.reason, daily.db⟩

/-- Embedding of the `daily`/`hourly` blocks of `RateLimiter.get_remaining_capacity`
(`app/utils/rate_limiter.py` lines 97-115). -/
structure Capacity where
  dailySent : Int
  dailyLimit : Int
  dailyRemaining : Int
  hourlySent : Int
  hourlyLimit : Int
  hourlyRemaining : Int
  deriving Repr, DecidableEq

/-- Embeds `RateLimiter.get_remaining_capacity`: `none` models the `{"error": ...}`
dictionary returned when the config row is missing. -/
def RateLimiter.getRemainingCapacity (db : Db) : Option Capacity :=
  db.config.map fun c =>
    ⟨c.emailsSentToday, c.dailyEmailLimit, c.dailyEmailLimit - c.emailsSentToday,
     c.emailsSentThisHour, c.hourlyEmailLimit, c.hourlyEmailLimit - c.emailsSentThisHour⟩

/-- Embeds `SafetyController.can_contact_lead` (`app/agent/safety_controller.py`
lines 21-58): seven ordered checks, first failure wins. -/
def SafetyController.canContactLead (lead : Lead) (now : Nat) : Bool × String :=
  if !lead.agentEnabled then
    (false, "Lead has agent disabled")
  else if lead.agentPaused then
    (false, "Lead is manually paused")
  else if lead.status ∈ ["unsubscribed", "bounced", "replied", "interested", "not_interested"] then
    (false, "Lead status is '" ++ lead.status ++ "'")
  else if lead.maxFollowUps ≤ lead.followUpCount then
    (false, "Max follow-ups reached (" ++ toString lead.maxFollowUps ++ ")")
  else if 3 ≤ lead.errorCount then
    (false, "Too many errors (" ++ toString lead.errorCount ++ ")")
  else if 2 ≤ lead.bounceCount then
    (false, "Lead email bounced multiple times")
  else if lead.nextAgentCheckAt.isSome && !TimeUtils.isReadyForAction now lead.nextAgentCheckAt then
    (false, "Not yet time to contact")
  else
    (true, "Lead is eligible")

/-- Embeds `SafetyController.can_send_now` (`app/agent/safety_controller.py` lines
60-95).  `bizHours` is the oracle outcome of `TimeUtils.is_business_hours`. -/
def SafetyController.canSendNow (db : Db) (bizHours : Bool) : RLCheck :=
  match db.config with
  | none => ⟨false, "Agent config not found", db⟩
  | some config =>
    if !config.isRunning then ⟨false, "Agent is not running", db⟩
    else if config.isPaused then ⟨false, "Agent is paused", db⟩
    else if config.respectBusinessHours && !bizHours then ⟨false, "Outside business hours", db⟩
    else RateLimiter.canSendEmail db

/-- The `DecisionType` constants (`app/agent/decision_engine.py` lines 18-25). -/
def DecisionType.SEND_INITIAL : String := "send_initial_email"

def DecisionType.SEND_FOLLOWUP : String := "send_followup_email"

def DecisionType.SKIP : String := "skip"

def DecisionType.WAIT : String := "wait"

def DecisionType.CLOSE : String := "close"

/-- The in-memory `Decision` object (`app/agent/decision_engine.py` lines
28-39); the lead reference is modelled by its id. -/
structure Decision where
  leadId : Nat
  action : String
  reason : String
  priority : ℚ
  deriving Repr, DecidableEq

/-- Embeds `DecisionEngine._calculate_priority` (`app/agent/decision_engine.py` lines
111-129): start from `priority_score`, +2.0 for new leads, +0.5 per sequence
step, −1.0 per error, clamp to [1.0, 10.0]. -/
def DecisionEngine.calculatePriority (lead : Lead) : ℚ :=
  let score := lead.priorityScore
  let score := if lead.status = "new" then score + 2.0 else score
  let score := score + (lead.sequenceStep : ℚ) * 0.5
  let score := score - (lead.errorCount : ℚ) * 1.0
  max 1.0 (min 10.0 score)

/-- Embeds `DecisionEngine.evaluate_lead` (`app/agent/decision_engine.py` lines
48-109).  Note the follow-up readiness guard is literally
`lead.next_agent_check_at and TimeUtils.is_ready_for_action(...)`: a null
schedule is falsy and falls through to the WAIT branch. -/
def DecisionEngine.evaluateLead (lead : Lead) (now : Nat) : Decision :=
  let safety := SafetyController.canContactLead lead now
  if !safety.1 then
    ⟨lead.id, DecisionType.SKIP, safety.2, 0.0⟩
  else if lead.status = "new" ∧ lead.sequenceStep = 0 then
    ⟨lead.id, DecisionType.SEND_INITIAL, "New lead ready for initial contact",
      DecisionEngine.calculatePriority lead⟩
  else if lead.status ∈ ["contacted", "follow_up"] then
    if lead.nextAgentCheckAt.isSome && TimeUtils.isReadyForAction now lead.nextAgentCheckAt then
      if lead.followUpCount < lead.maxFollowUps then
        ⟨lead.id, DecisionType.SEND_FOLLOWUP,
          "Follow-up #" ++ toString (lead.followUpCount + 1) ++ " due",
          DecisionEngine.calculatePriority lead⟩
      else
        ⟨lead.id, DecisionType.CLOSE, "Max follow-ups reached, no response", 1.0⟩
    else
      ⟨lead.id, DecisionType.WAIT, "Not yet time for next contact", 0.0⟩
  else
    ⟨lead.id, DecisionType.SKIP, "Lead in non-actionable state: " ++ lead.status, 0.0⟩

/-- Ordering key of `get_actionable_leads`' SQL `ORDER BY priority_score DESC,
next_agent_check_at ASC` (nulls first, SQLite default). -/
def leadOrderKey (a b : Lead) : Bool :=
  if a.priorityScore = b.priorityScore then
    match a.nextAgentCheckAt, b.nextAgentCheckAt with
    | none, _ => true
    | some _, none => false
    | some x, some y => decide (x ≤ y)
  else decide (b.priorityScore ≤ a.priorityScore)

/-- Embeds `DecisionEngine.get_actionable_leads` (`app/agent/decision_engine.py` lines
131-145): filter to enabled, unpaused leads in an actionable status, order by
priority, truncate to `limit`. -/
def DecisionEngine.getActionableLeads (db : Db) (limit : Nat) : List Lead :=
  (((db.leads.filter fun l =>
      l.agentEnabled && !l.agentPaused &&
        decide (l.status ∈ ["new", "contacted", "follow_up"])).insertionSort
      fun a b => leadOrderKey a b = true).take limit)

/-- Embeds `DecisionEngine.make_decisions` (`app/agent/decision_engine.py` lines
147-186): evaluate up to 200 candidate leads, keep only SEND_INITIAL /
SEND_FOLLOWUP, sort by priority descending, truncate to `max_actions`. -/
def DecisionEngine.makeDecisions (db : Db) (maxActions : Nat) : List Decision :=
  let leads := DecisionEngine.getActionableLeads db 200
  let decisions := leads.map fun lead => DecisionEngine.evaluateLead lead db.now
  let actionable := decisions.filter fun d =>
    d.action ∈ [DecisionType.SEND_INITIAL, DecisionType.SEND_FOLLOWUP]
  let sorted := actionable.insertionSort fun a b => b.priority ≤ a.priority
  sorted.take maxActions

/-- Embeds `StateManager.transition_to_contacted` (`app/agent/state_manager.py` lines
32-49). -/
def StateManager.transitionToContacted (lead : Lead) (now : Nat) : Lead :=
  { lead with
    status := "contacted"
    sequenceStep := 1
    followUpCount := lead.followUpCount + 1
    lastEmailSentAt := some now
    lastAgentActionAt := some now
    nextAgentCheckAt := some (TimeUtils.calculateNextFollowup now lead.daysBetweenFollowups) }

/-- Embeds `StateManager.transition_to_follow_up` (`app/agent/state_manager.py` lines
51-68). -/
def StateManager.transitionToFollowUp (lead : Lead) (now : Nat) : Lead :=
  { lead with
    status := "follow_up"
    sequenceStep := lead.sequenceStep + 1
    followUpCount := lead.followUpCount + 1
    lastEmailSentAt := some now
    lastAgentActionAt := some now
    nextAgentCheckAt := some (TimeUtils.calculateNextFollowup now lead.daysBetweenFollowups) }

/-- Embeds `StateManager.handle_error` (`app/agent/state_manager.py` lines 133-149):
bump `error_count`, record the message; disable the lead after 3 errors, else
reschedule in one hour. -/
def StateManager.handleError (lead : Lead) (msg : String) (now : Nat) : Lead :=
  let lead := { lead with
    errorCount := lead.errorCount + 1
    lastErrorMessage := some msg
    lastAgentActionAt := some now }
  if 3 ≤ lead.errorCount then
    { lead with agentEnabled := false, nextAgentCheckAt := none }
  else
    { lead with nextAgentCheckAt := some (now + 3600) }

/-- The outcome of one per-decision handler call inside the cycle loop
(`app/agent/agent_runner.py` lines 108-129): either it runs to completion, or
it raises before the `EmailQueue` row was persisted (e.g. while committing the
template fields), or after (e.g. while dispatching the celery task). -/
inductive HandlerOutcome where
  | ok
  | failBeforeQueue (err : String)
  | failAfterQueue (err : String)
  deriving Repr, DecidableEq

/-- Environment oracle for one cycle: the `is_business_hours` outcome and the
per-decision handler outcomes (indexed by position in the decision list). -/
structure Oracle where
  businessHours : Bool
  handler : Nat → HandlerOutcome

/-- The cycle summary dictionary built by `AgentRunner.run_cycle`
(`app/agent/agent_runner.py` lines 59-68; timing metadata omitted). -/
structure CycleResult where
  status : String
  decisionsMade : Nat
  emailsQueued : Nat
  leadsSkipped : Nat
  errors : Nat
  blockReason : Option String
  deriving Repr, DecidableEq

/-- Embeds `AgentRunner.is_agent_enabled` (`app/agent/agent_runner.py` lines 39-46):
`False` when the config row is missing, else `is_running and not is_paused`. -/
def AgentRunner.isAgentEnabled (db : Db) : Bool :=
  match db.config with
  | none => false
  | some config => config.isRunning && !config.isPaused

/-- Replace the lead with the given id by `f` of it. -/
def Db.updateLead (db : Db) (leadId : Nat) (f : Lead → Lead) : Db :=
  { db with leads := db.leads.map fun l => if l.id = leadId then f l else l }

/-- Replace the queue row with the given id by `f` of it (no-op when absent,
like the Python `if queue_record:` guards). -/
def Db.updateQueueRow (db : Db) (queueId : Nat) (f : EmailQueue → EmailQueue) : Db :=
  { db with queue := db.queue.map fun q => if q.id = queueId then f q else q }

/-- The `EmailQueue` row created by `_execute_send_initial` /
`_execute_send_followup` (`app/agent/agent_runner.py` lines 174-191 and
216-232): status `pending`, `max_retries=3`, stamped with the dispatched task
id.  Row ids are allocated sequentially. -/
def newQueueRow (db : Db) (leadId : Nat) (taskId : Option Nat) : EmailQueue :=
  { id := db.queue.length, leadId := leadId, taskId := taskId,
    status := "pending", retryCount := 0, maxRetries := 3, lastError := none,
    scheduledAt := some db.now, sentAt := none, failedAt := none }

/-- Embeds `AgentRunner._execute_send_initial` (`app/agent/agent_runner.py` lines
154-196): persist a pending queue row, dispatch the task, store the task id,
advance the lead via `transition_to_contacted`.  (The wood-template notes
fields are not modelled.) -/
def AgentRunner.executeSendInitial (db : Db) (decision : Decision) (taskId : Nat) : Db :=
  let db := { db with queue := db.queue ++ [newQueueRow db decision.leadId (some taskId)] }
  db.updateLead decision.leadId fun l => StateManager.transitionToContacted l db.now

/-- Embeds `AgentRunner._execute_send_followup` (`app/agent/agent_runner.py` lines
198-237): same shape, advancing via `transition_to_follow_up`. -/
def AgentRunner.executeSendFollowup (db : Db) (decision : Decision) (taskId : Nat) : Db :=
  let db := { db with queue := db.queue ++ [newQueueRow db decision.leadId (some taskId)] }
  db.updateLead decision.leadId fun l => StateManager.transitionToFollowUp l db.now

/-- The decision-execution loop of `run_cycle` (`app/agent/agent_runner.py`
lines 107-129), returning the updated store and the `(emails_queued,
leads_skipped, errors)` tallies.  A handler exception increments `errors` and
applies `StateManager.handle_error` to the lead; the loop always continues. -/
def AgentRunner.execLoop (or : Oracle) : Db → List Decision → Nat → Db × Nat × Nat × Nat
  | db, [], _ => (db, 0, 0, 0)
  | db, d :: rest, i =>
    match or.handler i with
    | .ok =>
      if d.action = DecisionType.SEND_INITIAL then
        let db := AgentRunner.executeSendInitial db d i
        let (db, q, s, e) := AgentRunner.execLoop or db rest (i + 1)
        (db, q + 1, s, e)
      else if d.action = DecisionType.SEND_FOLLOWUP then
        let db := AgentRunner.executeSendFollowup db d i
        let (db, q, s, e) := AgentRunner.execLoop or db rest (i + 1)
        (db, q + 1, s, e)
      else if d.action = DecisionType.SKIP then
        let (db, q, s, e) := AgentRunner.execLoop or db rest (i + 1)
        (db, q, s + 1, e)
      else
        AgentRunner.execLoop or db rest (i + 1)
    | .failBeforeQueue err =>
      let db := db.updateLead d.leadId fun l => StateManager.handleError l err db.now
      let (db, q, s, e) := AgentRunner.execLoop or db rest (i + 1)
      (db, q, s, e + 1)
    | .failAfterQueue err =>
      let db := { db with queue := db.queue ++ [newQueueRow db d.leadId none] }
      let db := db.updateLead d.leadId fun l => StateManager.handleError l err db.now
      let (db, q, s, e) := AgentRunner.execLoop or db rest (i + 1)
      (db, q, s, e + 1)

/-- Embeds `AgentRunner.run_cycle` (`app/agent/agent_runner.py` lines 48-152): the
early-return ladder (disabled → blocked → rate_limited → idle) followed by the
decision-execution loop and the `last_agent_run_at` stamp. -/
def AgentRunner.runCycle (db : Db) (or : Oracle) : CycleResult × Db :=
  let results : CycleResult := ⟨"running", 0, 0, 0, 0, none⟩
  if AgentRunner.isAgentEnabled db = false then
    ({ results with status := "disabled" }, db)
  else
    let safety := SafetyController.canSendNow db or.businessHours
    if safety.ok = false then
      ({ results with status := "blocked", blockReason := some safety.reason }, safety.db)
    else
      let db := safety.db
      match RateLimiter.getRemainingCapacity db with
      | none => ({ results with status := "failed" }, db)
      | some capacity =>
        let maxSends : Int := min capacity.dailyRemaining (min capacity.hourlyRemaining 20)
        if maxSends ≤ 0 then
          ({ results with status := "rate_limited" }, db)
        else
          let decisions := DecisionEngine.makeDecisions db maxSends.toNat
          if decisions.isEmpty then
            ({ results with status := "idle", decisionsMade := decisions.length }, db)
          else
            let (db, queued, skipped, errs) := AgentRunner.execLoop or db decisions 0
            let db := { db with
              config := db.config.map fun c => { c with lastAgentRunAt := some db.now } }
            ({ results with
                status := "completed",
                decisionsMade := decisions.length,
                emailsQueued := queued,
                leadsSkipped := skipped,
                errors := errs }, db)

/-- The computed `max_sends = min(daily remaining, hourly remaining, 20)` of a
cycle run on `db`, read at the point `run_cycle` reads it (after the safety
checks, which may have lazily reset counters); `0` when the config row is
missing. -/
def cycleCapacity (db : Db) (or : Oracle) : Int :=
  match RateLimiter.getRemainingCapacity (SafetyController.canSendNow db or.businessHours).db with
  | none => 0
  | some capacity => min capacity.dailyRemaining (min capacity.hourlyRemaining 20)

/-- Outcome of the external work inside `generate_and_send_email_task`:
the SMTP collaborator reporting `(False, err)`, a raised exception (LLM
timeout, SMTP exception, ...), or success. -/
inductive SendOutcome where
  | success
  | sendFail (err : String)
  | exc (err : String)
  deriving Repr, DecidableEq

/-- The value/behaviour of one execution of the celery task: the returned
`success`/`error` fields (`none` when the attempt re-raised for a retry) and
the countdown of the scheduled retry, if any. -/
structure TaskResult where
  succeeded : Option Bool
  error : Option String
  retryCountdown : Option Nat
  deriving Repr, DecidableEq

/-- Embeds `generate_and_send_email_task` (`app/worker/tasks.py` lines 27-232), one
execution at celery retry index `retries` (`self.request.retries`, 0-based).
On start the queue row is marked `processing`; on success the row goes to
`sent` and the lead is advanced; a `(False, err)` send outcome marks the row
`failed` immediately with no retry; an exception stamps `last_error`, bumps
`retry_count` and retries with countdown `300 * 2**retries` while
`retries < max_retries = 3`, else the row is permanently failed with the
"Max retries exceeded" message. -/
def Worker.generateAndSendEmailTask (db : Db) (leadId : Nat) (queueId : Option Nat)
    (retries : Nat) (taskId : Nat) (outcome : SendOutcome) : Db × TaskResult :=
  let db :=
    match queueId with
    | none => db
    | some qid => db.updateQueueRow qid fun q =>
        { q with status := "processing", taskId := some taskId, retryCount := retries }
  match db.leads.find? fun l => l.id = leadId with
  | none =>
    let db :=
      match queueId with
      | none => db
      | some qid => db.updateQueueRow qid fun q =>
          { q with
            status := "failed",
            lastError := some "Lead not found",
            failedAt := some db.now }
    (db, ⟨some false, some "Lead not found", none⟩)
  | some _ =>
    match outcome with
    | .success =>
      let db := db.updateLead leadId fun l =>
        { l with
          lastEmailSentAt := some db.now,
          status := if l.sequenceStep = 0 then "contacted" else "follow_up",
          sequenceStep := l.sequenceStep + 1 }
      let db :=
        match queueId with
        | none => db
        | some qid => db.updateQueueRow qid fun q =>
            { q with status := "sent", sentAt := some db.now }
      (db, ⟨some true, none, none⟩)
    | .sendFail err =>
      let db :=
        match queueId with
        | none => db
        | some qid => db.updateQueueRow qid fun q =>
            { q with status := "failed", lastError := some err, failedAt := some db.now }
      (db, ⟨some false, some err, none⟩)
    | .exc err =>
      let db :=
        match queueId with
        | none => db
        | some qid => db.updateQueueRow qid fun q =>
            { q with lastError := some err, retryCount := retries + 1 }
      if retries < 3 then
        (db, ⟨none, some err, some (300 * 2 ^ retries)⟩)
      else
        let db :=
          match queueId with
          | none => db
          | some qid => db.updateQueueRow qid fun q =>
              { q with
                status := "failed",
                lastError := some ("Max retries exceeded: " ++ err),
                failedAt := some db.now }
        (db, ⟨some false, some "Max retries exceeded", none⟩)

/-- Projection `emails_sent_today` of the store (0 when the config row is absent). -/
def Db.sentToday (db : Db) : Int :=
  match db.config with
  | none => 0
  | some c => c.emailsSentToday

/-- Projection `emails_sent_this_hour` of the store (0 when the config row is absent). -/
def Db.sentThisHour (db : Db) : Int :=
  match db.config with
  | none => 0
  | some c => c.emailsSentThisHour

/-- Projection `total_emails_sent` of the store (0 when the config row is absent). -/
def Db.totalSent (db : Db) : Int :=
  match db.config with
  | none => 0
  | some c => c.totalEmailsSent

/-! Concrete fixtures used by counterexamples and witnesses. -/

/-- Oracle: inside business hours, every handler succeeds. -/
def oracleOk : Oracle := ⟨true, fun _ => .ok⟩

/-- A running, unpaused config with plenty of remaining capacity, whose
daily/hourly windows are current (no lazy reset pending at `now = 1000000`,
`today = "2025-01-02"`). -/
def cfgReady : AgentConfig :=
  { isRunning := true, isPaused := false,
    dailyEmailLimit := 50, hourlyEmailLimit := 10,
    emailsSentToday := 3, emailsSentThisHour := 1,
    lastResetDate := "2025-01-02", lastHourReset := some 999000,
    respectBusinessHours := false, totalEmailsSent := 7, lastAgentRunAt := none }

/-- A fresh importable lead (status `new`, step 0, no failures). -/
def leadNew : Lead :=
  { id := 1, email := "alice@acme.test", status := "new", sequenceStep := 0,
    agentEnabled := true, agentPaused := false, nextAgentCheckAt := none,
    lastEmailSentAt := none, lastAgentActionAt := none, followUpCount := 0,
    maxFollowUps := 3, daysBetweenFollowups := 3, priorityScore := 5,
    bounceCount := 0, errorCount := 0, lastErrorMessage := none }

/-- A contacted lead whose `next_agent_check_at` is null. -/
def leadContactedNullCheck : Lead :=
  { leadNew with
    status := "contacted",
    sequenceStep := 1,
    followUpCount := 1,
    nextAgentCheckAt := none }

/-- Store with the ready config and one new lead. -/
def dbReady : Db := ⟨some cfgReady, [leadNew], [], "2025-01-02", 1000000⟩

/-- Same store with the agent paused. -/
def dbPaused : Db := { dbReady with config := some { cfgReady with isPaused := true } }

/-- Same store with the agent stopped (`is_running = False`). -/
def dbNotRunning : Db := { dbReady with config := some { cfgReady with isRunning := false } }

/-- Same store with no `AgentConfig` row at all. -/
def dbNoConfig : Db := { dbReady with config := none }

/-- A pending queue row for lead 1, as created by the enqueue path. -/
def rowPending : EmailQueue :=
  { id := 0
    leadId := 1
    taskId := some 0
    status := "pending"
    retryCount := 0
    maxRetries := 3
    lastError := none
    scheduledAt := some 1000000
    sentAt := none
    failedAt := none }

/-- Store holding the pending row (the state seen by the worker task). -/
def dbWithRow : Db := { dbReady with queue := [rowPending] }

/-! ## Specification-side definitions (for refinement-style claims) -/

/-- Return the reason of the first failing check of an ordered check list, or
`(True, "Lead is eligible")` when every check passes. -/
def firstFailing : List (Bool × String) → Bool × String
  | [] => (true, "Lead is eligible")
  | (ok, reason) :: rest => if ok then firstFailing rest else (false, reason)

/-- The per-lead safety checks in the order documented by the spec (§4.4):
agent_enabled → agent_paused → status not blocked → follow-ups → errors →
bounces → schedule readiness, each paired with its failure reason. -/
def specContactChecks (lead : Lead) (now : Nat) : List (Bool × String) :=
  [(lead.agentEnabled, "Lead has agent disabled"),
   (!lead.agentPaused, "Lead is manually paused"),
   (decide (lead.status ∉
      ["unsubscribed", "bounced", "replied", "interested", "not_interested"]),
    "Lead status is '" ++ lead.status ++ "'"),
   (decide (lead.followUpCount < lead.maxFollowUps),
    "Max follow-ups reached (" ++ toString lead.maxFollowUps ++ ")"),
   (decide (lead.errorCount < 3), "Too many errors (" ++ toString lead.errorCount ++ ")"),
   (decide (lead.bounceCount < 2), "Lead email bounced multiple times"),
   (!(lead.nextAgentCheckAt.isSome && !TimeUtils.isReadyForAction now lead.nextAgentCheckAt),
    "Not yet time to contact")]

/-! ## Claim theorems -/

/-- Claim C9: `_calculate_priority` returns the clamp to [1.0, 10.0] of
`priority_score (+ 2.0 if new) + sequence_step * 0.5 − error_count * 1.0`;
in particular the result lies in [1.0, 10.0] for arbitrary (including negative
or huge) `priority_score`, `sequence_step` and `error_count` values (the float
arithmetic is modelled exactly over `ℚ`). -/
theorem C9_calculate_priority_clamped (lead : Lead) :
    1 ≤ DecisionEngine.calculatePriority lead ∧ DecisionEngine.calculatePriority lead ≤ 10 := by
  unfold DecisionEngine.calculatePriority
  constructor
  · calc (1 : ℚ) = 1.0 := by norm_num
    _ ≤ _ := le_max_left _ _
  · refine max_le (by norm_num) ((min_le_left _ _).trans (by norm_num))

set_option maxHeartbeats 1000000 in
/-- Claim C5: `can_contact_lead` returns exactly the reason of the first failing
check, taken in the documented order agent_enabled → agent_paused → blocked
status → follow-ups → errors → bounces → schedule readiness. -/
theorem C5_first_failing_check (lead : Lead) (now : Nat) :
    SafetyController.canContactLead lead now = firstFailing (specContactChecks lead now) := by
  unfold SafetyController.canContactLead specContactChecks
  simp only [firstFailing]
  split_ifs <;> simp_all [not_lt] <;> omega

/-- A contacted lead whose follow-up is due (`next_agent_check_at = 5 ≤ now`). -/
def leadFollowupDue : Lead :=
  { leadNew with
    status := "contacted",
    sequenceStep := 1,
    followUpCount := 1,
    nextAgentCheckAt := some 5 }

/-- Claim C3, counterexample: A lead with status `contacted` that passes
`can_contact_lead` and has a null `next_agent_check_at` — which
`is_ready_for_action` defines as "ready now" — is given WAIT (priority 0) by
`evaluate_lead`, not SEND_FOLLOWUP as the claim states: the follow-up guard
`lead.next_agent_check_at and is_ready_for_action(...)` treats null as not
ready. -/
theorem C3_counterexample :
    (SafetyController.canContactLead leadContactedNullCheck 1000000).1 = true ∧
    leadContactedNullCheck.status = "contacted" ∧
    leadContactedNullCheck.nextAgentCheckAt = none ∧
    TimeUtils.isReadyForAction 1000000 leadContactedNullCheck.nextAgentCheckAt = true ∧
    leadContactedNullCheck.followUpCount < leadContactedNullCheck.maxFollowUps ∧
    DecisionEngine.evaluateLead leadContactedNullCheck 1000000 =
      ⟨1, DecisionType.WAIT, "Not yet time for next contact", 0.0⟩ ∧
    (DecisionEngine.evaluateLead leadContactedNullCheck 1000000).action ≠
      DecisionType.SEND_FOLLOWUP := by
  with_unfolding_all decide

/-- Claim C3, amended: For a lead with status `contacted`/`follow_up` that
passes `can_contact_lead`: when `next_agent_check_at` is null **or** still in
the future, `evaluate_lead` yields WAIT with priority 0; only when
`next_agent_check_at` is set and due does it yield SEND_FOLLOWUP with priority
`_calculate_priority(lead)` (the CLOSE arm is unreachable here, since passing
`can_contact_lead` already forces `follow_up_count < max_follow_ups`). -/
theorem C3_followup_wait_vs_send (lead : Lead) (now : Nat)
    (hs : lead.status = "contacted" ∨ lead.status = "follow_up")
    (hc : (SafetyController.canContactLead lead now).1 = true) :
    ((lead.nextAgentCheckAt = none →
        DecisionEngine.evaluateLead lead now =
          ⟨lead.id, DecisionType.WAIT, "Not yet time for next contact", 0.0⟩) ∧
     (∀ t, lead.nextAgentCheckAt = some t → now < t →
        DecisionEngine.evaluateLead lead now =
          ⟨lead.id, DecisionType.WAIT, "Not yet time for next contact", 0.0⟩) ∧
     (∀ t, lead.nextAgentCheckAt = some t → t ≤ now →
        DecisionEngine.evaluateLead lead now =
          ⟨lead.id, DecisionType.SEND_FOLLOWUP,
            "Follow-up #" ++ toString (lead.followUpCount + 1) ++ " due",
            DecisionEngine.calculatePriority lead⟩)) := by
  have hfu : lead.followUpCount < lead.maxFollowUps := by
    unfold SafetyController.canContactLead at hc
    split_ifs at hc <;> simp_all [not_lt]
  have hnew : ¬(lead.status = "new" ∧ lead.sequenceStep = 0) := by
    rcases hs with h | h <;> simp [h]
  refine ⟨?_, ?_, ?_⟩
  · intro hnone
    unfold DecisionEngine.evaluateLead
    rcases hs with h | h <;>
      simp [hc, hnew, h, hnone, TimeUtils.isReadyForAction]
  · intro t ht hlt
    unfold DecisionEngine.evaluateLead
    have hr : TimeUtils.isReadyForAction now (some t) = false := by
      simp [TimeUtils.isReadyForAction]
      omega
    rcases hs with h | h <;>
      simp [hc, hnew, h, ht, hr]
  · intro t ht hle
    unfold DecisionEngine.evaluateLead
    have hr : TimeUtils.isReadyForAction now (some t) = true := by
      simp [TimeUtils.isReadyForAction, hle]
    rcases hs with h | h <;>
      simp [hc, hnew, h, ht, hr, hfu]

/-- Claim C3, witness: The amended theorem applied to a due follow-up lead. -/
theorem C3_followup_wait_vs_send_witness :
    DecisionEngine.evaluateLead leadFollowupDue 10 =
      ⟨leadFollowupDue.id, DecisionType.SEND_FOLLOWUP,
        "Follow-up #" ++ toString (leadFollowupDue.followUpCount + 1) ++ " due",
        DecisionEngine.calculatePriority leadFollowupDue⟩ :=
  (C3_followup_wait_vs_send leadFollowupDue 10 (Or.inl rfl)
      (by with_unfolding_all rfl)).2.2 5 rfl (by omega)

/-- Claim C2, counterexample: With the singleton config paused
(`is_paused = true`), `run_cycle()` reports status `"disabled"` — not
`"blocked"` as the claim states: the `is_agent_enabled` early-return
(`is_running and not is_paused`) fires before `can_send_now` ever gets to
report "Agent is paused". -/
theorem C2_counterexample :
    dbPaused.config.map AgentConfig.isPaused = some true ∧
    (AgentRunner.runCycle dbPaused oracleOk).1.status = "disabled" ∧
    (AgentRunner.runCycle dbPaused oracleOk).1.status ≠ "blocked" := by
  with_unfolding_all decide

/-- Claim C2, amended: If the singleton `AgentConfig` row has
`is_paused = true`, then `run_cycle()` returns a result whose status is
`"disabled"` (not `"blocked"`), makes zero decisions, and creates zero
`EmailQueue` rows. -/
theorem C2_paused_cycle (db : Db) (c : AgentConfig) (or : Oracle)
    (hc : db.config = some c) (hp : c.isPaused = true) :
    (AgentRunner.runCycle db or).1.status = "disabled" ∧
    (AgentRunner.runCycle db or).1.decisionsMade = 0 ∧
    (AgentRunner.runCycle db or).1.emailsQueued = 0 ∧
    (AgentRunner.runCycle db or).2.queue = db.queue := by
  unfold AgentRunner.runCycle AgentRunner.isAgentEnabled
  simp [hc, hp]

/-- Claim C2, witness: The amended theorem applied to the paused fixture. -/
theorem C2_paused_cycle_witness :
    (AgentRunner.runCycle dbPaused oracleOk).1.status = "disabled" ∧
    (AgentRunner.runCycle dbPaused oracleOk).1.decisionsMade = 0 ∧
    (AgentRunner.runCycle dbPaused oracleOk).1.emailsQueued = 0 ∧
    (AgentRunner.runCycle dbPaused oracleOk).2.queue = dbPaused.queue :=
  C2_paused_cycle dbPaused { cfgReady with isPaused := true } oracleOk rfl rfl

/-- Claim C4, counterexample: With no `AgentConfig` row at all, `run_cycle()`
reports exactly the same result as it does for a present-but-stopped config —
status `"disabled"` — so the missing-configuration condition is *not* reported
distinctly from "disabled" by this entry point. -/
theorem C4_counterexample :
    dbNoConfig.config = none ∧
    (AgentRunner.runCycle dbNoConfig oracleOk).1 =
      (AgentRunner.runCycle dbNotRunning oracleOk).1 ∧
    (AgentRunner.runCycle dbNoConfig oracleOk).1.status = "disabled" := by
  with_unfolding_all decide

/-- Claim C4, amended: When no `AgentConfig` row exists, the rate-limiter and
safety-controller entry points hard-stop with the distinct reason
`"Agent config not found"`, but `run_cycle` reports status `"disabled"` —
indistinguishable from the ordinary disabled status — while still making zero
decisions and creating zero queue rows. -/
theorem C4_missing_config (db : Db) (or : Oracle) (h : db.config = none) :
    (RateLimiter.checkDailyLimit db).ok = false ∧
    (RateLimiter.checkDailyLimit db).reason = "Agent config not found" ∧
    (RateLimiter.checkHourlyLimit db).ok = false ∧
    (RateLimiter.checkHourlyLimit db).reason = "Agent config not found" ∧
    (SafetyController.canSendNow db or.businessHours).ok = false ∧
    (SafetyController.canSendNow db or.businessHours).reason = "Agent config not found" ∧
    (AgentRunner.runCycle db or).1.status = "disabled" ∧
    (AgentRunner.runCycle db or).1.decisionsMade = 0 ∧
    (AgentRunner.runCycle db or).2.queue = db.queue := by
  unfold AgentRunner.runCycle AgentRunner.isAgentEnabled RateLimiter.checkDailyLimit
    RateLimiter.checkHourlyLimit SafetyController.canSendNow
  simp [h]

/-- Claim C4, witness: The amended theorem applied to the config-less fixture. -/
theorem C4_missing_config_witness :
    (RateLimiter.checkDailyLimit dbNoConfig).ok = false ∧
    (RateLimiter.checkDailyLimit dbNoConfig).reason = "Agent config not found" ∧
    (RateLimiter.checkHourlyLimit dbNoConfig).ok = false ∧
    (RateLimiter.checkHourlyLimit dbNoConfig).reason = "Agent config not found" ∧
    (SafetyController.canSendNow dbNoConfig oracleOk.businessHours).ok = false ∧
    (SafetyController.canSendNow dbNoConfig oracleOk.businessHours).reason =
      "Agent config not found" ∧
    (AgentRunner.runCycle dbNoConfig oracleOk).1.status = "disabled" ∧
    (AgentRunner.runCycle dbNoConfig oracleOk).1.decisionsMade = 0 ∧
    (AgentRunner.runCycle dbNoConfig oracleOk).2.queue = dbNoConfig.queue :=
  C4_missing_config dbNoConfig oracleOk rfl

/-- The daily check leaves the store with `last_reset_date = today` and the
(possibly reset) counter; both limit-comparison branches commit the same
state. -/
theorem checkDailyLimit_db_eq (db : Db) (c : AgentConfig) (hc : db.config = some c) :
    (RateLimiter.checkDailyLimit db).db =
      { db with config := some (if c.lastResetDate ≠ db.today then
          { c with emailsSentToday := 0, lastResetDate := db.today } else c) } := by
  unfold RateLimiter.checkDailyLimit
  rw [hc]
  by_cases hd : c.lastResetDate = db.today <;> simp [hd] <;> split_ifs <;> rfl

/-- The hourly check leaves the store with a refreshed-or-unchanged
`last_hour_reset` and the (possibly reset) counter. -/
theorem checkHourlyLimit_db_eq (db : Db) (c : AgentConfig) (hc : db.config = some c) :
    (RateLimiter.checkHourlyLimit db).db =
      { db with config := some (if (match c.lastHourReset with
            | none => true
            | some t => decide (3600 ≤ db.now - t)) then
          { c with emailsSentThisHour := 0, lastHourReset := some db.now } else c) } := by
  unfold RateLimiter.checkHourlyLimit
  rw [hc]
  rcases hl : c.lastHourReset with _ | t <;> simp [hl] <;> split_ifs <;> rfl

/-- Claim C8: Lazy counter resets are idempotent: a second `check_daily_limit`
call (necessarily inside the same `today` window) leaves `emails_sent_today`
unchanged; a second `check_hourly_limit` call within one hour of the committed
`last_hour_reset` leaves `emails_sent_this_hour` unchanged; and a call made
after the window has elapsed zeroes the counter exactly once, *before* the
comparison against the limit (so the check passes iff `0 < limit`). -/
theorem C8_lazy_reset_idempotent (db : Db) (c : AgentConfig) (n' : Nat)
    (hc : db.config = some c) :
    ((RateLimiter.checkDailyLimit (RateLimiter.checkDailyLimit db).db).db.sentToday =
      (RateLimiter.checkDailyLimit db).db.sentToday) ∧
    (c.lastResetDate ≠ db.today →
      (RateLimiter.checkDailyLimit db).db.sentToday = 0 ∧
      (RateLimiter.checkDailyLimit db).ok = decide ((0 : Int) < c.dailyEmailLimit)) ∧
    (c.lastResetDate = db.today →
      (RateLimiter.checkDailyLimit db).db.sentToday = c.emailsSentToday) ∧
    (∀ c' t, (RateLimiter.checkHourlyLimit db).db.config = some c' →
      c'.lastHourReset = some t → n' - t < 3600 →
      (RateLimiter.checkHourlyLimit
          { (RateLimiter.checkHourlyLimit db).db with now := n' }).db.sentThisHour =
        (RateLimiter.checkHourlyLimit db).db.sentThisHour) ∧
    ((c.lastHourReset = none ∨ ∃ t, c.lastHourReset = some t ∧ 3600 ≤ db.now - t) →
      (RateLimiter.checkHourlyLimit db).db.sentThisHour = 0 ∧
      (RateLimiter.checkHourlyLimit db).ok = decide ((0 : Int) < c.hourlyEmailLimit)) := by
  have hdb := checkDailyLimit_db_eq db c hc
  have hhb := checkHourlyLimit_db_eq db c hc
  refine ⟨?_, ?_, ?_, ?_, ?_⟩
  · by_cases hd : c.lastResetDate = db.today
    · have h1 : (RateLimiter.checkDailyLimit db).db = { db with config := some c } := by
        rw [hdb]; simp [hd]
      rw [checkDailyLimit_db_eq _ c (by rw [h1])]
      rw [h1]
      simp [Db.sentToday, hd]
    · have h1 : (RateLimiter.checkDailyLimit db).db =
          { db with config := some { c with emailsSentToday := 0, lastResetDate := db.today } } := by
        rw [hdb]; simp [hd]
      rw [checkDailyLimit_db_eq _ { c with emailsSentToday := 0, lastResetDate := db.today }
        (by rw [h1])]
      rw [h1]
      simp [Db.sentToday]
  · intro hd
    constructor
    · rw [hdb]; simp [Db.sentToday, hd]
    · unfold RateLimiter.checkDailyLimit
      rw [hc]
      simp [hd]
      split_ifs with h <;> simp <;> omega
  · intro hd
    rw [hdb]; simp [Db.sentToday, hd]
  · intro c' t hc' ht hlt
    have hcond : ¬ (3600 ≤ n' - t) := by omega
    have hc2 : ({ (RateLimiter.checkHourlyLimit db).db with now := n' } : Db).config = some c' :=
      hc'
    rw [checkHourlyLimit_db_eq _ c' hc2]
    simp [Db.sentThisHour, ht, hcond, hc']
  · intro hd
    have hreset : (match c.lastHourReset with
        | none => true
        | some t => decide (3600 ≤ db.now - t)) = true := by
      rcases hd with h | ⟨t, ht, hge⟩
      · rw [h]
      · rw [ht]; simpa using hge
    constructor
    · rw [hhb]; simp [Db.sentThisHour, hreset]
    · simp only [RateLimiter.checkHourlyLimit, hc, hreset]
      simp
      split_ifs with h <;> simp <;> omega

/-- A passing daily check means the committed counter is strictly below the
daily limit. -/
theorem checkDailyLimit_ok_lt (db : Db) (c c' : AgentConfig) (hc : db.config = some c)
    (h : (RateLimiter.checkDailyLimit db).ok = true)
    (hc' : (RateLimiter.checkDailyLimit db).db.config = some c') :
    c'.emailsSentToday < c'.dailyEmailLimit := by
  simp only [RateLimiter.checkDailyLimit, hc] at h
  rw [checkDailyLimit_db_eq db c hc] at hc'
  have hx : (if c.lastResetDate ≠ db.today then
      { c with emailsSentToday := 0, lastResetDate := db.today } else c) = c' :=
    Option.some.inj hc'
  subst hx
  split_ifs at h ⊢ <;> simp_all <;> omega

/-- A passing hourly check means the committed counter is strictly below the
hourly limit. -/
theorem checkHourlyLimit_ok_lt (db : Db) (c c' : AgentConfig) (hc : db.config = some c)
    (h : (RateLimiter.checkHourlyLimit db).ok = true)
    (hc' : (RateLimiter.checkHourlyLimit db).db.config = some c') :
    c'.emailsSentThisHour < c'.hourlyEmailLimit := by
  simp only [RateLimiter.checkHourlyLimit, hc] at h
  rw [checkHourlyLimit_db_eq db c hc] at hc'
  have hx : (if (match c.lastHourReset with
        | none => true
        | some t => decide (3600 ≤ db.now - t)) then
      { c with emailsSentThisHour := 0, lastHourReset := some db.now } else c) = c' :=
    Option.some.inj hc'
  subst hx
  rcases hr : c.lastHourReset with _ | t <;> simp only [hr] at h ⊢ <;>
    split_ifs at h ⊢ <;> simp_all <;> omega

/-- After a fully passing `can_send_email`, the committed config row has both
counters strictly below their limits. -/
theorem canSendEmail_ok_slack (db : Db) (h : (RateLimiter.canSendEmail db).ok = true) :
    ∃ c, (RateLimiter.canSendEmail db).db.config = some c ∧
      c.emailsSentToday < c.dailyEmailLimit ∧ c.emailsSentThisHour < c.hourlyEmailLimit := by
  unfold RateLimiter.canSendEmail at h ⊢
  by_cases hd : (RateLimiter.checkDailyLimit db).ok = true
  · by_cases hh :
        (RateLimiter.checkHourlyLimit (RateLimiter.checkDailyLimit db).db).ok = true
    · simp only [hd, hh, if_true] at h ⊢
      rcases hc : db.config with _ | c0
      · simp only [RateLimiter.checkDailyLimit, hc] at hd
        simp at hd
      · have h1 : (RateLimiter.checkDailyLimit db).db.config =
            some (if c0.lastResetDate ≠ db.today then
              { c0 with emailsSentToday := 0, lastResetDate := db.today } else c0) := by
          rw [checkDailyLimit_db_eq db c0 hc]
        have hdlt := checkDailyLimit_ok_lt db c0 _ hc hd h1
        have h2 : (RateLimiter.checkHourlyLimit (RateLimiter.checkDailyLimit db).db).db.config =
            some (if (match (if c0.lastResetDate ≠ db.today then
                  { c0 with emailsSentToday := 0, lastResetDate := db.today } else c0).lastHourReset with
                | none => true
                | some t => decide (3600 ≤ (RateLimiter.checkDailyLimit db).db.now - t)) then
              { (if c0.lastResetDate ≠ db.today then
                  { c0 with emailsSentToday := 0, lastResetDate := db.today } else c0) with
                emailsSentThisHour := 0,
                lastHourReset := some (RateLimiter.checkDailyLimit db).db.now }
              else (if c0.lastResetDate ≠ db.today then
                { c0 with emailsSentToday := 0, lastResetDate := db.today } else c0)) := by
          rw [checkHourlyLimit_db_eq (RateLimiter.checkDailyLimit db).db _ h1]
        have hhlt := checkHourlyLimit_ok_lt (RateLimiter.checkDailyLimit db).db _ _ h1 hh h2
        refine ⟨_, h2, ?_, hhlt⟩
        split_ifs with hA hB <;> split_ifs at hdlt <;> simpa using hdlt
    · rcases hv : (RateLimiter.checkHourlyLimit (RateLimiter.checkDailyLimit db).db).ok with _ | _
      · simp [hd, hv] at h
      · exact absurd hv hh
  · rcases hv : (RateLimiter.checkDailyLimit db).ok with _ | _
    · simp [hv] at h
    · exact absurd hv hd

/-- After a fully passing `can_send_now`, the committed config row has both
counters strictly below their limits. -/
theorem canSendNow_ok_slack (db : Db) (b : Bool)
    (h : (SafetyController.canSendNow db b).ok = true) :
    ∃ c, (SafetyController.canSendNow db b).db.config = some c ∧
      c.emailsSentToday < c.dailyEmailLimit ∧ c.emailsSentThisHour < c.hourlyEmailLimit := by
  rcases hc : db.config with _ | c
  · simp only [SafetyController.canSendNow, hc] at h
    simp at h
  · simp only [SafetyController.canSendNow, hc] at h ⊢
    split_ifs at h ⊢ <;> first
      | (exact canSendEmail_ok_slack db h)
      | simp_all

/-- Claim C10: Once `can_send_now` has returned true, the cycle's
`max_sends = min(daily remaining, hourly remaining, 20)` is at least 1 (each
limit check passes only with its counter strictly below the limit), so
`run_cycle`'s `"rate_limited"` early-return — a status the spec does not
enumerate — is unreachable in single-threaded execution. -/
theorem C10_rate_limited_unreachable (db : Db) (or : Oracle) :
    ((SafetyController.canSendNow db or.businessHours).ok = true →
      1 ≤ cycleCapacity db or) ∧
    (AgentRunner.runCycle db or).1.status ≠ "rate_limited" := by
  have hcap : (SafetyController.canSendNow db or.businessHours).ok = true →
      1 ≤ cycleCapacity db or := by
    intro h
    obtain ⟨c, hcfg, hd, hh⟩ := canSendNow_ok_slack db or.businessHours h
    unfold cycleCapacity
    simp only [RateLimiter.getRemainingCapacity, hcfg, Option.map_some']
    exact le_min (by omega) (le_min (by omega) (by norm_num))
  refine ⟨hcap, ?_⟩
  unfold AgentRunner.runCycle
  by_cases he : AgentRunner.isAgentEnabled db = false
  · simp [he]
  · simp only [he, if_false]
    by_cases hs : (SafetyController.canSendNow db or.businessHours).ok = false
    · simp [hs]
    · have hok : (SafetyController.canSendNow db or.businessHours).ok = true := by
        rcases hv : (SafetyController.canSendNow db or.businessHours).ok
        · exact absurd hv hs
        · rfl
      obtain ⟨c, hcfg, hd, hh⟩ := canSendNow_ok_slack db or.businessHours hok
      have hmin : (1 : Int) ≤ min (c.dailyEmailLimit - c.emailsSentToday)
          (min (c.hourlyEmailLimit - c.emailsSentThisHour) 20) :=
        le_min (by omega) (le_min (by omega) (by norm_num))
      simp only [hs, if_false, RateLimiter.getRemainingCapacity, hcfg, Option.map_some']
      have hpos : ¬ (min (c.dailyEmailLimit - c.emailsSentToday)
          (min (c.hourlyEmailLimit - c.emailsSentThisHour) 20) ≤ 0) := by
        intro hle
        omega
      simp only [hpos, if_false]
      split_ifs <;> simp

/-- Claim C10, witness: The theorem applied to the ready fixture. -/
theorem C10_rate_limited_unreachable_witness :
    (SafetyController.canSendNow dbReady oracleOk.businessHours).ok = true ∧
    1 ≤ cycleCapacity dbReady oracleOk ∧
    (AgentRunner.runCycle dbReady oracleOk).1.status ≠ "rate_limited" := by
  have h := C10_rate_limited_unreachable dbReady oracleOk
  exact ⟨by with_unfolding_all rfl, h.1 (by with_unfolding_all rfl), h.2⟩

/-- The function `make_decisions` returns at most `max_actions` decisions. -/
theorem makeDecisions_length_le (db : Db) (n : Nat) :
    (DecisionEngine.makeDecisions db n).length ≤ n := by
  unfold DecisionEngine.makeDecisions
  simp [List.length_take]

/-- The send-initial handler appends exactly one queue row. -/
theorem executeSendInitial_queue_len (db : Db) (d : Decision) (t : Nat) :
    (AgentRunner.executeSendInitial db d t).queue.length = db.queue.length + 1 := by
  simp [AgentRunner.executeSendInitial, Db.updateLead]

/-- The send-followup handler appends exactly one queue row. -/
theorem executeSendFollowup_queue_len (db : Db) (d : Decision) (t : Nat) :
    (AgentRunner.executeSendFollowup db d t).queue.length = db.queue.length + 1 := by
  simp [AgentRunner.executeSendFollowup, Db.updateLead]

/-- The decision-execution loop appends at most one queue row per decision. -/
theorem execLoop_queue_le (or : Oracle) :
    ∀ (ds : List Decision) (db : Db) (i : Nat),
      (AgentRunner.execLoop or db ds i).1.queue.length ≤ db.queue.length + ds.length := by
  intro ds
  induction ds with
  | nil => intro db i; simp [AgentRunner.execLoop]
  | cons d rest ih =>
    intro db i
    unfold AgentRunner.execLoop
    cases hh : or.handler i with
    | ok =>
      split_ifs with h1 h2 h3
      · rcases hrec : AgentRunner.execLoop or (AgentRunner.executeSendInitial db d i)
            rest (i + 1) with ⟨db2, q2, s2, e2⟩
        have hih := ih (AgentRunner.executeSendInitial db d i) (i + 1)
        rw [hrec] at hih
        simp only [hrec]
        simp only [executeSendInitial_queue_len] at hih
        simp at hih ⊢
        omega
      · rcases hrec : AgentRunner.execLoop or (AgentRunner.executeSendFollowup db d i)
            rest (i + 1) with ⟨db2, q2, s2, e2⟩
        have hih := ih (AgentRunner.executeSendFollowup db d i) (i + 1)
        rw [hrec] at hih
        simp only [hrec]
        simp only [executeSendFollowup_queue_len] at hih
        simp at hih ⊢
        omega
      · rcases hrec : AgentRunner.execLoop or db rest (i + 1) with ⟨db2, q2, s2, e2⟩
        have hih := ih db (i + 1)
        rw [hrec] at hih
        simp only [hrec]
        simp at hih ⊢
        omega
      · rcases hrec : AgentRunner.execLoop or db rest (i + 1) with ⟨db2, q2, s2, e2⟩
        have hih := ih db (i + 1)
        rw [hrec] at hih
        simp only [hrec]
        simp at hih ⊢
        omega
    | failBeforeQueue err =>
      rcases hrec : AgentRunner.execLoop or
          (db.updateLead d.leadId fun l => StateManager.handleError l err db.now)
          rest (i + 1) with ⟨db2, q2, s2, e2⟩
      have hih := ih (db.updateLead d.leadId fun l => StateManager.handleError l err db.now)
        (i + 1)
      rw [hrec] at hih
      simp only [hrec]
      simp [Db.updateLead] at hih ⊢
      omega
    | failAfterQueue err =>
      rcases hrec : AgentRunner.execLoop or
          (({ db with queue := db.queue ++ [newQueueRow db d.leadId none] } : Db).updateLead
            d.leadId fun l => StateManager.handleError l err
              ({ db with queue := db.queue ++ [newQueueRow db d.leadId none] } : Db).now)
          rest (i + 1) with ⟨db2, q2, s2, e2⟩
      have hih := ih (({ db with queue := db.queue ++ [newQueueRow db d.leadId none] } : Db).updateLead
        d.leadId fun l => StateManager.handleError l err
          ({ db with queue := db.queue ++ [newQueueRow db d.leadId none] } : Db).now) (i + 1)
      rw [hrec] at hih
      simp only [hrec]
      simp [Db.updateLead] at hih ⊢
      omega

/-- The daily check commits no change outside the config row. -/
theorem checkDailyLimit_queue (db : Db) :
    (RateLimiter.checkDailyLimit db).db.queue = db.queue := by
  rcases hc : db.config with _ | c
  · simp [RateLimiter.checkDailyLimit, hc]
  · rw [checkDailyLimit_db_eq db c hc]

/-- The hourly check commits no change outside the config row. -/
theorem checkHourlyLimit_queue (db : Db) :
    (RateLimiter.checkHourlyLimit db).db.queue = db.queue := by
  rcases hc : db.config with _ | c
  · simp [RateLimiter.checkHourlyLimit, hc]
  · rw [checkHourlyLimit_db_eq db c hc]

/-- The function `can_send_email` commits no change outside the config row. -/
theorem canSendEmail_queue (db : Db) :
    (RateLimiter.canSendEmail db).db.queue = db.queue := by
  simp only [RateLimiter.canSendEmail]
  split_ifs <;> simp [checkHourlyLimit_queue, checkDailyLimit_queue]

/-- The function `can_send_now` commits no change outside the config row. -/
theorem canSendNow_queue (db : Db) (b : Bool) :
    (SafetyController.canSendNow db b).db.queue = db.queue := by
  rcases hc : db.config with _ | c
  · simp [SafetyController.canSendNow, hc]
  · simp only [SafetyController.canSendNow, hc]
    split_ifs <;> simp [canSendEmail_queue]

/-- The computed cycle capacity never exceeds the hard ceiling 20. -/
theorem cycleCapacity_toNat_le_20 (db : Db) (or : Oracle) :
    (cycleCapacity db or).toNat ≤ 20 := by
  unfold cycleCapacity
  rcases h : RateLimiter.getRemainingCapacity
      (SafetyController.canSendNow db or.businessHours).db with _ | cap
  · simp
  · have : min cap.dailyRemaining (min cap.hourlyRemaining 20) ≤ 20 :=
      le_trans (min_le_right _ _) (min_le_right _ _)
    simp only []
    omega

/-- Claim C7: In every `run_cycle` invocation the number of decisions executed —
and a fortiori the number of `EmailQueue` rows created — is at most
`max_sends = min(daily remaining, hourly remaining, 20)` as computed by the
cycle (`cycleCapacity`, a non-negative count via `Int.toNat`), and in
particular at most the hard ceiling 20, which is a constant independent of the
configured limits. -/
theorem C7_cycle_bounded_by_capacity (db : Db) (or : Oracle) :
    (AgentRunner.runCycle db or).1.decisionsMade ≤ (cycleCapacity db or).toNat ∧
    (AgentRunner.runCycle db or).1.decisionsMade ≤ 20 ∧
    (AgentRunner.runCycle db or).2.queue.length ≤
      db.queue.length + (AgentRunner.runCycle db or).1.decisionsMade := by
  have hmain : (AgentRunner.runCycle db or).1.decisionsMade ≤ (cycleCapacity db or).toNat ∧
      (AgentRunner.runCycle db or).2.queue.length ≤
        db.queue.length + (AgentRunner.runCycle db or).1.decisionsMade := by
    unfold AgentRunner.runCycle
    by_cases he : AgentRunner.isAgentEnabled db = false
    · simp [he]
    · simp only [he, if_false]
      by_cases hs : (SafetyController.canSendNow db or.businessHours).ok = false
      · simp [hs, canSendNow_queue]
      · simp only [hs, if_false]
        rcases hcap : RateLimiter.getRemainingCapacity
            (SafetyController.canSendNow db or.businessHours).db with _ | cap
        · simp [hcap, canSendNow_queue]
        · simp only [hcap]
          by_cases hm : min cap.dailyRemaining (min cap.hourlyRemaining 20) ≤ 0
          · simp [hm, canSendNow_queue]
          · simp only [hm, if_false]
            by_cases hE : (DecisionEngine.makeDecisions
                (SafetyController.canSendNow db or.businessHours).db
                (min cap.dailyRemaining (min cap.hourlyRemaining 20)).toNat).isEmpty
            · simp only [hE, if_true]
              simp [List.isEmpty_iff] at hE
              simp [hE, canSendNow_queue]
            · simp only [hE, if_false]
              rcases hrec : AgentRunner.execLoop or
                  (SafetyController.canSendNow db or.businessHours).db
                  (DecisionEngine.makeDecisions
                    (SafetyController.canSendNow db or.businessHours).db
                    (min cap.dailyRemaining (min cap.hourlyRemaining 20)).toNat) 0
                  with ⟨db2, q2, s2, e2⟩
              simp only [hrec]
              have hloop := execLoop_queue_le or
                (DecisionEngine.makeDecisions
                  (SafetyController.canSendNow db or.businessHours).db
                  (min cap.dailyRemaining (min cap.hourlyRemaining 20)).toNat)
                (SafetyController.canSendNow db or.businessHours).db 0
              rw [hrec] at hloop
              have hlen := makeDecisions_length_le
                (SafetyController.canSendNow db or.businessHours).db
                (min cap.dailyRemaining (min cap.hourlyRemaining 20)).toNat
              have hccap : cycleCapacity db or =
                  min cap.dailyRemaining (min cap.hourlyRemaining 20) := by
                unfold cycleCapacity
                rw [hcap]
              have hq : (SafetyController.canSendNow db or.businessHours).db.queue.length =
                  db.queue.length := by rw [canSendNow_queue]
              constructor
              · simp only [hccap]
                simpa using hlen
              · simp at hloop ⊢
                omega
  exact ⟨hmain.1, le_trans hmain.1 (cycleCapacity_toNat_le_20 db or), hmain.2⟩

/-- A store whose daily and hourly windows have both elapsed
(`last_reset_date` is yesterday, `last_hour_reset` far in the past). -/
def dbStale : Db :=
  { dbReady with config := some { cfgReady with
      lastResetDate := "2025-01-01", lastHourReset := some 0 } }

/-- Claim C8, witness: The idempotent-reset theorem applied to the stale fixture:
both counters are zeroed exactly once, the zeroed counter is what gets
compared, and the immediate second daily call is a no-op. -/
theorem C8_lazy_reset_idempotent_witness :
    (RateLimiter.checkDailyLimit dbStale).db.sentToday = 0 ∧
    (RateLimiter.checkDailyLimit dbStale).ok = decide ((0 : Int) < 50) ∧
    (RateLimiter.checkHourlyLimit dbStale).db.sentThisHour = 0 ∧
    (RateLimiter.checkDailyLimit (RateLimiter.checkDailyLimit dbStale).db).db.sentToday =
      (RateLimiter.checkDailyLimit dbStale).db.sentToday := by
  have h := C8_lazy_reset_idempotent dbStale
    { cfgReady with lastResetDate := "2025-01-01", lastHourReset := some 0 } 1000500 rfl
  exact ⟨(h.2.1 (by decide)).1, (h.2.1 (by decide)).2,
    (h.2.2.2.2 (Or.inr ⟨0, rfl, by decide⟩)).1, h.1⟩

/-- Claim C1, code bug: `RateLimiter.increment_counters` has no caller anywhere
in the repository: a full successful agent cycle (which enqueues one email for
the new lead) followed by the queue task executor completing the send — with
success, and alternatively with a reported send failure — leaves
`emails_sent_today`, `emails_sent_this_hour` and `total_emails_sent` all
unchanged, whereas one `increment_counters` invocation would have bumped them. -/
theorem C1_increment_counters_never_invoked :
    (AgentRunner.runCycle dbReady oracleOk).1.status = "completed" ∧
    (AgentRunner.runCycle dbReady oracleOk).1.emailsQueued = 1 ∧
    (Worker.generateAndSendEmailTask (AgentRunner.runCycle dbReady oracleOk).2
        1 (some 0) 0 0 .success).2.succeeded = some true ∧
    (Worker.generateAndSendEmailTask (AgentRunner.runCycle dbReady oracleOk).2
        1 (some 0) 0 0 .success).1.sentToday = dbReady.sentToday ∧
    (Worker.generateAndSendEmailTask (AgentRunner.runCycle dbReady oracleOk).2
        1 (some 0) 0 0 .success).1.sentThisHour = dbReady.sentThisHour ∧
    (Worker.generateAndSendEmailTask (AgentRunner.runCycle dbReady oracleOk).2
        1 (some 0) 0 0 .success).1.totalSent = dbReady.totalSent ∧
    (Worker.generateAndSendEmailTask (AgentRunner.runCycle dbReady oracleOk).2
        1 (some 0) 0 0 (.sendFail "SMTP error")).1.totalSent = dbReady.totalSent ∧
    (Worker.generateAndSendEmailTask (AgentRunner.runCycle dbReady oracleOk).2
        1 (some 0) 0 0 (.sendFail "SMTP error")).1.sentToday = dbReady.sentToday ∧
    (RateLimiter.incrementCounters
        (Worker.generateAndSendEmailTask (AgentRunner.runCycle dbReady oracleOk).2
          1 (some 0) 0 0 .success).1).totalSent =
      (Worker.generateAndSendEmailTask (AgentRunner.runCycle dbReady oracleOk).2
          1 (some 0) 0 0 .success).1.totalSent + 1 := by
  with_unfolding_all decide

/-- Claim C6, counterexample: The first failing attempt (an exception at celery
retry index 0) on a fresh queue row schedules a retry after 300 s but leaves
the row in status `"processing"` with `failed_at` unset — the claim's "each
failure stamps last_error **and failed_at**" and "queue row → failed" do not
hold for the per-retry failures. -/
theorem C6_counterexample :
    (Worker.generateAndSendEmailTask dbWithRow 1 (some 0) 0 7 (.exc "SMTP timeout")).2.retryCountdown =
      some 300 ∧
    ((Worker.generateAndSendEmailTask dbWithRow 1 (some 0) 0 7 (.exc "SMTP timeout")).1.queue.map
        EmailQueue.failedAt) = [none] ∧
    ((Worker.generateAndSendEmailTask dbWithRow 1 (some 0) 0 7 (.exc "SMTP timeout")).1.queue.map
        EmailQueue.status) = ["processing"] := by
  with_unfolding_all decide

/-- Claim C6, amended: For a queue task whose external work raises on every
attempt: each non-final failure (retry index `r < max_retries = 3`) stamps
`last_error` and bumps `retry_count` to `r + 1`, leaves the row in
`"processing"` with `failed_at` untouched, and schedules a retry after exactly
`300 * 2^r` seconds; the attempt at `r = 3` (the `max_retries + 1`-th overall)
marks the row permanently `"failed"` with the distinct
`"Max retries exceeded: ..."` message, stamps `failed_at`, and schedules no
further retry. -/
theorem C6_retry_backoff_and_exhaustion (db : Db) (row : EmailQueue) (lead : Lead)
    (r : Nat) (e : String) (tid : Nat)
    (hq : db.queue = [row]) (hl : db.leads.find? (fun l => l.id = lead.id) = some lead) :
    (r < 3 →
      (Worker.generateAndSendEmailTask db lead.id (some row.id) r tid (.exc e)).1.queue =
        [{ row with
            status := "processing",
            taskId := some tid,
            retryCount := r + 1,
            lastError := some e }] ∧
      (Worker.generateAndSendEmailTask db lead.id (some row.id) r tid (.exc e)).2.retryCountdown =
        some (300 * 2 ^ r)) ∧
    (3 ≤ r →
      (Worker.generateAndSendEmailTask db lead.id (some row.id) r tid (.exc e)).1.queue =
        [{ row with
            status := "failed",
            taskId := some tid,
            retryCount := r + 1,
            lastError := some ("Max retries exceeded: " ++ e),
            failedAt := some db.now }] ∧
      (Worker.generateAndSendEmailTask db lead.id (some row.id) r tid (.exc e)).2.retryCountdown =
        none ∧
      (Worker.generateAndSendEmailTask db lead.id (some row.id) r tid (.exc e)).2.succeeded =
        some false) := by
  constructor
  · intro hr
    simp [Worker.generateAndSendEmailTask, Db.updateQueueRow, hq, hl, hr]
  · intro hr
    have hnr : ¬ (r < 3) := by omega
    simp [Worker.generateAndSendEmailTask, Db.updateQueueRow, hq, hl, hnr]

/-- Claim C6, witness: The amended theorem applied to the pending-row fixture at
retry indices 0 (backoff) and 3 (exhaustion). -/
theorem C6_retry_backoff_and_exhaustion_witness :
    ((Worker.generateAndSendEmailTask dbWithRow leadNew.id (some rowPending.id) 0 9
        (.exc "boom")).1.queue =
      [{ rowPending with
          status := "processing",
          taskId := some 9,
          retryCount := 1,
          lastError := some "boom" }] ∧
     (Worker.generateAndSendEmailTask dbWithRow leadNew.id (some rowPending.id) 0 9
        (.exc "boom")).2.retryCountdown = some (300 * 2 ^ 0)) ∧
    ((Worker.generateAndSendEmailTask dbWithRow leadNew.id (some rowPending.id) 3 9
        (.exc "boom")).1.queue =
      [{ rowPending with
          status := "failed",
          taskId := some 9,
          retryCount := 4,
          lastError := some ("Max retries exceeded: " ++ "boom"),
          failedAt := some dbWithRow.now }] ∧
     (Worker.generateAndSendEmailTask dbWithRow leadNew.id (some rowPending.id) 3 9
        (.exc "boom")).2.retryCountdown = none ∧
     (Worker.generateAndSendEmailTask dbWithRow leadNew.id (some rowPending.id) 3 9
        (.exc "boom")).2.succeeded = some false) := by
  have h0 := C6_retry_backoff_and_exhaustion dbWithRow rowPending leadNew 0 "boom" 9 rfl rfl
  have h3 := C6_retry_backoff_and_exhaustion dbWithRow rowPending leadNew 3 "boom" 9 rfl rfl
  exact ⟨h0.1 (by omega), h3.2 (by omega)⟩

end AgentCore
